import Mathlib

/-!
Verification development for the envconsul supervisor core.

The Go sources embedded here are the runner (`Run`, `appendPrefixes`,
`appendSecrets`, `appendServices`, `applyConfigEnv`, quiescence timer
handling in `Start`) and the configuration loader (`Parse`, `Must`).

Modelling conventions:
* Go `map[string]T` values are association lists with first-match lookup
  (`assocGet`) and in-place overwrite (`assocSet`); maps built from the
  empty map by `assocSet` never hold duplicate keys, so this is faithful.
* Fallible Go functions return the error as an `Option String` alongside
  their result; a Go panic (failed unchecked type assertion) is a dedicated
  constructor.
* The external template library (html/template) is abstracted as a
  `TemplateEngine`: a deterministic map from template text (and the bound
  helper inputs) to a parse failure, an execution failure, or rendered
  output. The shell-glob matcher (path/filepath.Match) is abstracted as a
  function from pattern and string to Bool, with match errors already
  folded to `false` as the source does.
* Where the source ranges over a Go map (the secret value map, the
  per-service serKV map), the iteration order is UNSPECIFIED in Go; the
  model takes the entry-list order as an explicit input standing for that
  iteration order, so order-dependence of the build is expressible.
* Quiescence timers (time.After) are modelled as absolute deadlines.
-/

/-! ## Association-list maps (Go map[string]α) -/

/-- Lookup in an association list; first binding wins (Go maps have at most
one binding per key, and every map we build keeps that invariant). -/
def assocGet {α : Type} : List (String × α) → String → Option α
  | [], _ => none
  | (k, v) :: rest, key => if k = key then some v else assocGet rest key

/-- Map write `m[key] = val`: overwrite the binding in place, or append. -/
def assocSet {α : Type} : List (String × α) → String → α → List (String × α)
  | [], key, val => [(key, val)]
  | (k, v) :: rest, key, val =>
    if k = key then (k, val) :: rest else (k, v) :: assocSet rest key val

/-- The last value bound to `key` in a raw pair list (not deduplicated). -/
def lastAssoc {α : Type} : List (String × α) → String → Option α
  | [], _ => none
  | (k, v) :: rest, key =>
    match lastAssoc rest key with
    | some w => some w
    | none => if k = key then some v else none

/-- An environment: Go `map[string]string`. -/
abbrev Env := List (String × String)

/-- Overlay `ov` on top of `base`: `for k, v := range ov { base[k] = v }`. -/
def envUnion (base ov : Env) : Env :=
  ov.foldl (fun acc kv => assocSet acc kv.1 kv.2) base

/-! ## Small helpers from the config package and stdlib -/

/-- config.BoolVal: dereference a *bool, false when nil. -/
def boolVal : Option Bool → Bool
  | some b => b
  | none => false

/-- config.StringVal: dereference a *string, "" when nil. -/
def stringVal : Option String → String
  | some s => s
  | none => ""

/-- config.StringPresent: non-nil and non-empty. -/
def stringPresent : Option String → Bool
  | some s => !(s == "")
  | none => false

/-- A character accepted by the key regexp (anything else is invalid):
the source's InvalidRegexp matches every character outside a-zA-Z0-9_. -/
def validChar (c : Char) : Bool :=
  (('a' ≤ c) && (c ≤ 'z')) || (('A' ≤ c) && (c ≤ 'Z')) ||
    (('0' ≤ c) && (c ≤ '9')) || (c == '_')

/-- InvalidRegexp.ReplaceAllString s "_": replace each invalid character
with an underscore. -/
def replaceInvalid (s : String) : String :=
  String.mk (s.data.map (fun c => if validChar c then c else '_'))

/-- A whitespace character in the sense of strings.TrimSpace (ASCII
portion; the keys in play are ASCII). -/
def isSpaceChar (c : Char) : Bool :=
  (c == ' ') || (c == '\t') || (c == '\n') || (c == '\r')

/-- strings.TrimSpace: strip leading and trailing whitespace. -/
def trimSpace (s : String) : String :=
  String.mk (((s.data.dropWhile isSpaceChar).reverse.dropWhile
    isSpaceChar).reverse)

/-- strings.ToUpper (per character). -/
def toUpperGo (s : String) : String :=
  String.mk (s.data.map Char.toUpper)

def splitEqOnceAux : List Char → List Char → Option (String × String)
  | _, [] => none
  | acc, c :: rest =>
    if c = '=' then some (String.mk acc.reverse, String.mk rest)
    else splitEqOnceAux (c :: acc) rest

/-- strings.SplitN(s, "=", 2) followed by taking both halves. The source
indexes element 1 unconditionally, which panics when `s` has no '='; that
case is `none` here. -/
def splitEqOnce (s : String) : Option (String × String) :=
  splitEqOnceAux [] s.data

/-! ## External template engine (html/template) -/

/-- Outcome of parsing-then-executing one template against its inputs. -/
inductive TRes where
  | parseFailed
  | execFailed (msg : String)
  | rendered (out : String)

/-- The template library, abstracted: each of the three template contexts
(format templates binding key/replaceKey, path templates binding env,
service templates binding service/key) is a deterministic function of the
template text and the bound values. -/
structure TemplateEngine where
  fmtTmpl : String → String → TRes
  pathTmpl : String → TRes
  svcTmpl : String → String → String → TRes

/-- applyFormatTemplate(contents, key): note the source returns an EMPTY
error (nil) when the template fails to PARSE, so only execution failures
surface; the rendered key is "" in both failure cases. -/
def applyFormatTemplate (E : TemplateEngine) (contents key : String) :
    String × Option String :=
  match E.fmtTmpl contents key with
  | .parseFailed => ("", none)
  | .execFailed m => ("", some m)
  | .rendered out => (out, none)

/-- applyPathTemplate(contents): same shape, including the dropped parse
error. -/
def applyPathTemplate (E : TemplateEngine) (contents : String) :
    String × Option String :=
  match E.pathTmpl contents with
  | .parseFailed => ("", none)
  | .execFailed m => ("", some m)
  | .rendered out => (out, none)

/-- applyServiceTemplate(contents, service, key): same shape. -/
def applyServiceTemplate (E : TemplateEngine) (contents service key : String) :
    String × Option String :=
  match E.svcTmpl contents service key with
  | .parseFailed => ("", none)
  | .execFailed m => ("", some m)
  | .rendered out => (out, none)

/-- An engine for templates without actions: the rendered output is the
template text itself. Used to instantiate theorems whose configurations
carry no format or path templates. -/
def idEngine : TemplateEngine :=
  ⟨fun c _ => .rendered c, fun c => .rendered c, fun c _ _ => .rendered c⟩

/-! ## Configuration stanzas -/

/-- One entry of a prefix/secret `keys` list: `name` plus optional
`format`. -/
structure KeyFormat where
  name : String
  format : Option String

/-- PrefixConfig: a `prefix` (KV) or `secret` stanza. `path` is the raw
(possibly templated) path; `noPrefix` is three-valued (nil / false /
true); `keys` is nil or a list. -/
structure PrefixConfig where
  path : String
  noPrefix : Option Bool
  format : Option String
  keys : Option (List KeyFormat)

/-- ServiceConfig: a `service` stanza with its five per-field format
templates. -/
structure ServiceConfig where
  query : String
  formatId : Option String
  formatName : Option String
  formatAddress : Option String
  formatTag : Option String
  formatPort : Option String

/-- exec.env: custom entries and the allow/deny glob lists (modern and
deprecated spellings kept separate, as in the source). -/
structure EnvConfig where
  pristine : Bool
  custom : List String
  allowlist : List String
  allowlistDeprecated : List String
  denylist : List String
  denylistDeprecated : List String

/-- The runner-level configuration values `Run` reads (after BoolVal
dereferencing): top-level pristine/sanitize/upcase plus exec.env. -/
structure RunnerConfig where
  pristine : Bool
  sanitize : Bool
  upcase : Bool
  execEnv : EnvConfig

/-! ## Dependency data (decoded watcher payloads) -/

/-- A dynamically-typed Vault value (interface{} in a secret's data map). -/
inductive VVal where
  | vNull
  | vStr (s : String)
  | vMap (m : List (String × VVal))
  | vOther

/-- Is this value the nil interface? -/
def isVNull : VVal → Bool
  | .vNull => true
  | _ => false

/-- Lookup in a Vault data map; a missing key reads as the nil
interface, exactly like a Go map read. -/
def vlookup : List (String × VVal) → String → VVal
  | [], _ => .vNull
  | (k, v) :: rest, key => if k = key then v else vlookup rest key

/-- One service catalog entry (the fields appendServices reads). -/
structure CatalogService where
  serviceID : String
  serviceName : String
  serviceAddress : String
  serviceTags : List String
  servicePort : Int

/-- A decoded dependency payload as stored in the runner's data map. The
append functions type-assert on it; `raw` stands for any dynamic type
other than the three expected ones. -/
inductive DepData where
  | kvPairs (pairs : List (String × String))
  | secret (data : List (String × VVal))
  | services (list : List CatalogService)
  | raw

/-! ## Per-source emission (appendPrefixes / appendSecrets / appendServices)

Each append function mutates the environment map it is handed and returns
an error value. `ARes` keeps the map as mutated up to the point of
failure, because Run keeps using that map even when an error was
returned. `panicked` models a failed unchecked type assertion. -/

inductive ARes where
  | done (env : Env)
  | failed (env : Env) (msg : String)
  | panicked

/-- The pair loop of appendPrefixes: for each KV pair, skip blank keys,
prefix with the sanitized RAW spec path when no_prefix is explicitly
false (nil means: exclude the prefix for Consul keys), apply the global
format template, then sanitize and upcase. The in-loop re-lookup of the
prefix config (`missing dependency` error) cannot fire here because the
config travels with the dependency, as it does for runners built by
init. -/
def appendPrefixesLoop (E : TemplateEngine) (san up : Bool) (cp : PrefixConfig) :
    Env → List (String × String) → ARes
  | env, [] => .done env
  | env, (k0, value) :: rest =>
    if trimSpace k0 == "" then appendPrefixesLoop E san up cp env rest
    else
      let key1 := if cp.noPrefix.isSome && !(boolVal cp.noPrefix)
        then replaceInvalid cp.path ++ "_" ++ k0
        else k0
      match (if stringPresent cp.format
             then applyFormatTemplate E (stringVal cp.format) key1
             else (key1, none)) with
      | (_, some m) => .failed env m
      | (key2, none) =>
        let key3 := if san then replaceInvalid key2 else key2
        let key4 := if up then toUpperGo key3 else key3
        appendPrefixesLoop E san up cp (assocSet env key4 value) rest

/-- appendPrefixes: type-assert the payload to a KeyPair list, then run
the pair loop. -/
def appendPrefixes (E : TemplateEngine) (san up : Bool) (cp : PrefixConfig)
    (env : Env) (data : DepData) : ARes :=
  match data with
  | .kvPairs pairs => appendPrefixesLoop E san up cp env pairs
  | _ => .failed env "error converting to keypair"

/-- isVaultKv2: KV-v2 detection. The `metadata` value is type-asserted to
a string-keyed map WITHOUT a check: a non-map, non-nil metadata value
panics (`none`). -/
def isVaultKv2 (data : List (String × VVal)) : Option Bool :=
  match vlookup data "metadata" with
  | .vNull => some false
  | .vMap mm => some (!(isVNull (vlookup mm "version")))
  | _ => none

/-- The KV-v2 unwrap step of appendSecrets: on a KV-v2 payload, a nil
inner `data` means the secret was deleted (iterate nothing); a non-map
inner `data` hits the second unchecked assertion and panics. -/
def unwrapSecretData (data : List (String × VVal)) :
    Option (List (String × VVal)) :=
  match isVaultKv2 data with
  | none => none
  | some false => some data
  | some true =>
    match vlookup data "data" with
    | .vNull => some []
    | .vMap mm => some mm
    | _ => none

/-- The per-key-format collection of appendSecrets: one output key per
listed KeyFormat that has a format; the first template failure aborts. -/
def collectKeyFmts (E : TemplateEngine) (origKey : String) :
    List KeyFormat → Except String (List String)
  | [] => .ok []
  | kf :: rest =>
    if stringPresent kf.format then
      match applyFormatTemplate E (stringVal kf.format) origKey with
      | (_, some m) => .error m
      | (k, none) =>
        match collectKeyFmts E origKey rest with
        | .error m => .error m
        | .ok ks => .ok (k :: ks)
    else collectKeyFmts E origKey rest

/-- The inner loop of appendSecrets over the (possibly per-key-formatted)
output keys of one entry: prefix with the TEMPLATED, sanitized spec path
unless no_prefix is explicitly true (nil means: include the prefix for
Vault secrets), apply the global format, sanitize, upcase, and skip
values that are not strings. -/
def secretKeyLoop (E : TemplateEngine) (san up : Bool) (cp : PrefixConfig)
    (value : VVal) : Env → List String → ARes
  | env, [] => .done env
  | env, key0 :: rest =>
    match (if !(cp.noPrefix.isSome) || !(boolVal cp.noPrefix) then
             match applyPathTemplate E cp.path with
             | (_, some m) => Except.error m
             | (p, none) => Except.ok (replaceInvalid p ++ "_" ++ key0)
           else Except.ok key0 : Except String String) with
    | .error m => .failed env m
    | .ok key1 =>
      match (if stringPresent cp.format
             then applyFormatTemplate E (stringVal cp.format) key1
             else (key1, none)) with
      | (_, some m) => .failed env m
      | (key2, none) =>
        let key3 := if san then replaceInvalid key2 else key2
        let key4 := if up then toUpperGo key3 else key3
        match value with
        | .vStr s => secretKeyLoop E san up cp value (assocSet env key4 s) rest
        | _ => secretKeyLoop E san up cp value env rest

/-- The entry loop of appendSecrets: skip blank keys and nil values;
under per-key formatting, skip keys that are not listed at all. The
source ranges over the value map in Go's UNSPECIFIED map-iteration
order; here the entry-list order is that iteration order, taken as an
explicit input. It is observable exactly when two distinct source keys
collide onto one final key (for example under upcase or sanitize). -/
def appendSecretsLoop (E : TemplateEngine) (san up : Bool) (cp : PrefixConfig)
    (applyPerKey : Bool) : Env → List (String × VVal) → ARes
  | env, [] => .done env
  | env, (origKey, value) :: rest =>
    if trimSpace origKey == "" then
      appendSecretsLoop E san up cp applyPerKey env rest
    else if isVNull value then
      appendSecretsLoop E san up cp applyPerKey env rest
    else if applyPerKey then
      let kfs := (match cp.keys with
                  | some l => l
                  | none => []).filter (fun kf => kf.name == origKey)
      if kfs.isEmpty then appendSecretsLoop E san up cp applyPerKey env rest
      else
        match collectKeyFmts E origKey kfs with
        | .error m => .failed env m
        | .ok applied =>
          match secretKeyLoop E san up cp value env
              (if applied.isEmpty then [origKey] else applied) with
          | .done e => appendSecretsLoop E san up cp applyPerKey e rest
          | .failed e m => .failed e m
          | .panicked => .panicked
    else
      match secretKeyLoop E san up cp value env [origKey] with
      | .done e => appendSecretsLoop E san up cp applyPerKey e rest
      | .failed e m => .failed e m
      | .panicked => .panicked

/-- appendSecrets: type-assert the payload to a Secret, unwrap the KV-v2
layout (possibly panicking), decide whether per-key formatting applies
(a keys list is present AND no global format), then run the entry loop. -/
def appendSecrets (E : TemplateEngine) (san up : Bool) (cp : PrefixConfig)
    (env : Env) (data : DepData) : ARes :=
  match data with
  | .secret raw0 =>
    match unwrapSecretData raw0 with
    | none => .panicked
    | some valueMap =>
      appendSecretsLoop E san up cp
        (cp.keys.isSome && !(stringPresent cp.format)) env valueMap
  | _ => .failed env "error converting to secret"

/-- One field of the per-service map: default key `name/field`, replaced
by the rendered service template when one is configured. -/
def svcField (E : TemplateEngine) (fmt : Option String)
    (serName fieldName value : String) (kvAcc : Env) : Except String Env :=
  if stringPresent fmt then
    match applyServiceTemplate E (stringVal fmt) serName fieldName with
    | (_, some m) => .error m
    | (k, none) => .ok (assocSet kvAcc k value)
  else .ok (assocSet kvAcc (serName ++ "/" ++ fieldName) value)

/-- The five per-service pairs of appendServices, built in source order
(id, name, address, tag, port). A nil service config means every field
keeps its default key. -/
def serviceKV (E : TemplateEngine) (cs : Option ServiceConfig)
    (ser : CatalogService) : Except String Env := do
  let fmtOf := fun (sel : ServiceConfig → Option String) =>
    match cs with
    | some c => sel c
    | none => none
  let kv ← svcField E (fmtOf ServiceConfig.formatId) ser.serviceName "id"
    ser.serviceID []
  let kv ← svcField E (fmtOf ServiceConfig.formatName) ser.serviceName "name"
    ser.serviceName kv
  let kv ← svcField E (fmtOf ServiceConfig.formatAddress) ser.serviceName
    "address" ser.serviceAddress kv
  let kv ← svcField E (fmtOf ServiceConfig.formatTag) ser.serviceName "tag"
    (String.intercalate "," ser.serviceTags) kv
  svcField E (fmtOf ServiceConfig.formatPort) ser.serviceName "port"
    (toString ser.servicePort) kv

/-- Write the per-service pairs into the environment; note appendServices
upcases BEFORE sanitizing (the opposite order of the other two sources).
The source ranges over the serKV map in Go's UNSPECIFIED iteration
order; here the list order stands for that order (observable only when
formatted final keys collide). -/
def writeServicePairs (san up : Bool) (env serKV : Env) : Env :=
  serKV.foldl (fun e kv =>
    let k1 := if up then toUpperGo kv.1 else kv.1
    let k2 := if san then replaceInvalid k1 else k1
    assocSet e k2 kv.2) env

def appendServicesLoop (E : TemplateEngine) (san up : Bool)
    (cs : Option ServiceConfig) : Env → List CatalogService → ARes
  | env, [] => .done env
  | env, ser :: rest =>
    match serviceKV E cs ser with
    | .error m => .failed env m
    | .ok kv =>
      appendServicesLoop E san up cs (writeServicePairs san up env kv) rest

/-- appendServices: type-assert the payload to a CatalogService list,
then emit the five pairs per service entry. -/
def appendServices (E : TemplateEngine) (san up : Bool)
    (cs : Option ServiceConfig) (env : Env) (data : DepData) : ARes :=
  match data with
  | .services list => appendServicesLoop E san up cs env list
  | _ => .failed env "error converting to service"

/-! ## Runner state: dependencies, snapshot, build -/

/-- A registered dependency with its identity string and the originating
stanza (the runner's configPrefixMap / configServiceMap entry for it). -/
inductive Dep where
  | kv (id : String) (cp : PrefixConfig)
  | vault (id : String) (cp : PrefixConfig)
  | catalog (id : String) (cs : Option ServiceConfig)

/-- d.String(): the stable identity keying the data snapshot. -/
def depId : Dep → String
  | .kv i _ => i
  | .vault i _ => i
  | .catalog i _ => i

/-- The runner's latest-data map (dependency identity to decoded data). -/
abbrev Snapshot := List (String × DepData)

/-- Receive: store the newest data for a dependency, overwriting. -/
def receive (snap : Snapshot) (id : String) (d : DepData) : Snapshot :=
  assocSet snap id d

/-- Fold a whole arrival sequence through Receive. -/
def receiveAll (snap : Snapshot) (arr : List (String × DepData)) : Snapshot :=
  arr.foldl (fun s ev => receive s ev.1 ev.2) snap

/-- Dispatch one dependency to its append function (the type switch in
Run). The error component of the result is produced but never read by
Run. -/
def depStep (E : TemplateEngine) (san up : Bool) (env : Env) (d : Dep)
    (data : DepData) : ARes :=
  match d with
  | .kv _ cp => appendPrefixes E san up cp env data
  | .vault _ cp => appendSecrets E san up cp env data
  | .catalog _ cs => appendServices E san up cs env data

/-- Result of the env-building loop at the top of Run. -/
inductive BuildRes where
  | panicked
  | notReady
  | built (env : Env)

/-- The dependency loop of Run: iterate dependencies in REGISTRATION
order; the first dependency with no snapshot entry aborts the build
("missing data"); append errors are DISCARDED and the loop continues
with whatever the append function wrote before failing. -/
def buildEnvLoop (E : TemplateEngine) (san up : Bool) (snap : Snapshot) :
    Env → List Dep → BuildRes
  | env, [] => .built env
  | env, d :: rest =>
    match assocGet snap (depId d) with
    | none => .notReady
    | some data =>
      match depStep E san up env d data with
      | .panicked => .panicked
      | .done e => buildEnvLoop E san up snap e rest
      | .failed e _ => buildEnvLoop E san up snap e rest

def buildEnv (E : TemplateEngine) (san up : Bool) (deps : List Dep)
    (snap : Snapshot) : BuildRes :=
  buildEnvLoop E san up snap [] deps

/-- Keys of an environment map. -/
def envKeys (e : Env) : List String := e.map (fun kv => kv.1)

/-- reflect.DeepEqual on two string maps: equal lookups at every key of
either side. -/
def envMapEqB (e1 e2 : Env) : Bool :=
  (envKeys e1).all (fun k => assocGet e1 k == assocGet e2 k) &&
    (envKeys e2).all (fun k => assocGet e1 k == assocGet e2 k)

/-- The idempotence check of Run: length first, then deep equality. -/
def runEnvSame (prev new : Env) : Bool :=
  (prev.length == new.length) && envMapEqB prev new

/-! ## applyConfigEnv (custom env, pristine, allow/deny filters) -/

/-- combineLists: all of `a`, then the members of `b` not already in `a`
(duplicates inside `b` itself are kept, as in the source). -/
def combineLists (a b : List String) : List String :=
  a ++ b.filter (fun v => !(a.contains v))

/-- The anyGlobMatch closure: does any pattern match? `gm` abstracts
filepath.Match with match errors already folded to false. -/
def anyGlobMatch (gm : String → String → Bool) (s : String)
    (patterns : List String) : Bool :=
  patterns.any (fun p => gm p s)

/-- Parse exec.env.custom: each entry split at its first '='; an entry
with no '=' makes the source panic (`none`). -/
def parseCustom (vs : List String) : Option Env :=
  vs.foldl (fun acc v =>
    match acc, splitEqOnce v with
    | some m, some kv => some (assocSet m kv.1 kv.2)
    | _, _ => none) (some [])

/-- The keys-set narrowing of applyConfigEnv: when the combined allowlist
is non-empty keep only matching keys, then when the combined denylist is
non-empty drop matching keys (the denylist wins). -/
def filterKeys (gm : String → String → Bool) (ec : EnvConfig)
    (keys0 : List String) : List String :=
  let allow := combineLists ec.allowlist ec.allowlistDeprecated
  let keys1 := if allow.length > 0
    then keys0.filter (fun k => anyGlobMatch gm k allow)
    else keys0
  let deny := combineLists ec.denylist ec.denylistDeprecated
  if deny.length > 0
    then keys1.filter (fun k => !(anyGlobMatch gm k deny))
    else keys1

/-- applyConfigEnv: parse customs; in exec.env.pristine mode return just
the customs (an empty, non-nil map when there are none); otherwise filter
the WHOLE incoming map (ambient and emitted entries alike) through the
allowlist then the denylist, and finally overlay the customs, which alone
bypass the filters. -/
def applyConfigEnv (gm : String → String → Bool) (ec : EnvConfig)
    (env : Env) : Option Env :=
  match parseCustom ec.custom with
  | none => none
  | some custom =>
    if ec.pristine then
      if custom.length > 0 then some custom else some []
    else
      let keys2 := filterKeys gm ec (envKeys env)
      some (envUnion (env.filter (fun kv => keys2.contains kv.1)) custom)

/-! ## Run -/

/-- What one invocation of Run does to the child process. `notReady` and
`unchanged` are the two early (nil, nil) returns: the current child, if
any, is left untouched. `spawnChild` is the path that stops the current
child and starts a new one; it records the new compiled (emitted)
environment and the final filtered environment handed to the child. -/
inductive RunOutcome where
  | notReady
  | unchanged
  | spawnChild (emitted : Env) (childEnv : Env)

/-- Run: build the emitted env from the snapshot in registration order;
return "unchanged" when it deep-equals the previous one; otherwise merge
with the ambient OS environment (unless top-level pristine), pass the
merge through applyConfigEnv, and swap the child. `none` is a panic. -/
def Run (E : TemplateEngine) (gm : String → String → Bool)
    (cfg : RunnerConfig) (deps : List Dep) (snap : Snapshot)
    (prevEnv : Env) (osEnv : Env) : Option RunOutcome :=
  match buildEnv E cfg.sanitize cfg.upcase deps snap with
  | .panicked => none
  | .notReady => some .notReady
  | .built env =>
    if runEnvSame prevEnv env then some .unchanged
    else
      let newEnv := envUnion (if cfg.pristine then [] else osEnv) env
      match applyConfigEnv gm cfg.execEnv newEnv with
      | none => none
      | some filtered => some (.spawnChild env filtered)

/-! ## init: dependency registration order -/

/-- init: KV prefixes are registered first, then services, then Vault
secrets, each in stanza order; KV and secret identities come from the
path with its template applied (a template execution failure fails
init). Identity strings are tagged by query kind, as the underlying
query String() methods are. -/
def initDeps (E : TemplateEngine) (prefixes : List PrefixConfig)
    (services : List ServiceConfig) (secrets : List PrefixConfig) :
    Option (List Dep) := do
  let kvs ← prefixes.mapM (fun p =>
    match applyPathTemplate E p.path with
    | (_, some _) => none
    | (path, none) => some (Dep.kv ("kv.list:" ++ path) p))
  let svcs := services.map (fun s => Dep.catalog ("catalog:" ++ s.query) (some s))
  let vaults ← secrets.mapM (fun s =>
    match applyPathTemplate E s.path with
    | (_, some _) => none
    | (path, none) => some (Dep.vault ("vault.read:" ++ path) s))
  some (kvs ++ svcs ++ vaults)

/-! ## Quiescence timer handling in the Start loop -/

/-- The two quiescence timer channels, as absolute deadlines (`none` is a
nil channel: not armed). -/
structure QState where
  minTimer : Option Nat
  maxTimer : Option Nat

/-- The data-arrival branch of the Start select, after draining: when
Wait is enabled, (re-)arm minTimer to min from now, arm maxTimer only if
it is not already armed, and `continue` (no build this iteration); when
Wait is disabled, leave the timers alone and fall through to a build.
The returned Bool is "fall through to Run now". -/
def onDataArrival (waitEnabled : Bool) (wmin wmax now : Nat) (s : QState) :
    QState × Bool :=
  if waitEnabled then
    (⟨some (now + wmin),
      match s.maxTimer with
      | none => some (now + wmax)
      | some t => some t⟩, false)
  else (s, true)

/-- The minTimer branch: clear both timers and fall through to a build. -/
def onMinTimerFired (_s : QState) : QState × Bool :=
  (⟨none, none⟩, true)

/-- The maxTimer branch: identical to the minTimer branch. -/
def onMaxTimerFired (_s : QState) : QState × Bool :=
  (⟨none, none⟩, true)

/-! ## Config loader: Parse and Must -/

/-- A Go pointer that may be nil. -/
inductive GoPtr (α : Type) where
  | null
  | ptr (val : α)

/-- Parse: the whole decode pipeline (hcl.Decode, key flattening,
deprecation rewrites, mapstructure) is abstracted as `pipeline`; what the
source guarantees is the shape of the return: every failure path returns
a NIL config together with the error, and success returns the decoded
config with a nil error. -/
def ParseGo {α : Type} (pipeline : String → Except String α) (s : String) :
    GoPtr α × Option String :=
  match pipeline s with
  | .error e => (.null, some e)
  | .ok c => (.ptr c, none)

/-- Must: call Parse, LOG (not panic, despite its doc comment) any error,
and return the parsed pointer unchanged — which is nil whenever Parse
failed. -/
def MustGo {α : Type} (pipeline : String → Except String α) (s : String) :
    GoPtr α :=
  (ParseGo pipeline s).1

/-! ## Concrete fixtures used by witnesses and counterexamples -/

/-- filepath.Match restricted to literal patterns (no metacharacters),
where a match is plain string equality. A valid instantiation of the
abstract matcher whenever the patterns in play contain no wildcard. -/
def litGM (p s : String) : Bool := p == s

/-- A prefix stanza with no_prefix = true and nothing else set. -/
def cpNoPre : PrefixConfig := ⟨"p", some true, none, none⟩

/-- A prefix stanza that also carries a global format template. -/
def cpFmt : PrefixConfig := ⟨"p", some true, some "fmtA", none⟩

/-- exec.env with no customs and no filter lists. -/
def ecPlain : EnvConfig := ⟨false, [], [], [], [], []⟩

/-- exec.env with a single denylist glob FOO. -/
def ecDenyFOO : EnvConfig := ⟨false, [], [], [], ["FOO"], []⟩

/-- exec.env in pristine mode without customs. -/
def ecPristineNoCustom : EnvConfig := ⟨true, [], [], [], [], []⟩

/-- exec.env in pristine mode with one custom entry. -/
def ecPristineCustom : EnvConfig := ⟨true, ["B=2"], [], [], [], []⟩

/-- Runner config: nothing enabled. -/
def cfgPlain : RunnerConfig := ⟨false, false, false, ecPlain⟩

/-- Runner config: only a denylist entry. -/
def cfgDenyFOO : RunnerConfig := ⟨false, false, false, ecDenyFOO⟩

/-- Runner config: pristine at both levels, no customs. -/
def cfgPristine : RunnerConfig := ⟨true, false, false, ecPristineNoCustom⟩

/-- Runner config: pristine at both levels, one custom entry. -/
def cfgPristineCustom : RunnerConfig := ⟨true, false, false, ecPristineCustom⟩

/-- An engine on which every template fails to parse. -/
def parseFailEngine : TemplateEngine :=
  ⟨fun _ _ => .parseFailed, fun _ => .parseFailed, fun _ _ _ => .parseFailed⟩

/-- An engine on which every template parses but fails to execute. -/
def execFailEngine : TemplateEngine :=
  ⟨fun _ _ => .execFailed "boom", fun _ => .execFailed "boom",
    fun _ _ _ => .execFailed "boom"⟩

/-- The effective key of one KV pair under a prefix stanza carrying no
format template, as the appendPrefixes code path computes it: the
sanitized RAW path is prepended exactly when no_prefix is EXPLICITLY
false (unset means no prefix for KV), then global sanitize, then global
upcase. -/
def kvEffectiveKey (san up : Bool) (path : String) (np : Option Bool)
    (k : String) : String :=
  let k1 := if np = some false then replaceInvalid path ++ "_" ++ k else k
  let k2 := if san then replaceInvalid k1 else k1
  if up then toUpperGo k2 else k2

/-! ## General lemmas about the association-list operations -/
theorem assocGet_assocSet_self {α : Type} (m : List (String × α)) (k : String) (v : α) :
    assocGet (assocSet m k v) k = some v := by
  induction m with
  | nil => simp [assocSet, assocGet]
  | cons hd tl ih =>
    by_cases h : hd.1 = k
    · simp [assocSet, assocGet, h]
    · simp [assocSet, assocGet, h, ih]

theorem assocGet_assocSet_ne {α : Type} (m : List (String × α)) (k k' : String) (v : α)
    (h : k ≠ k') : assocGet (assocSet m k v) k' = assocGet m k' := by
  induction m with
  | nil => simp [assocSet, assocGet, h]
  | cons hd tl ih =>
    by_cases hh : hd.1 = k
    · simp [assocSet, assocGet, hh, h]
    · by_cases hk' : hd.1 = k'
      · simp [assocSet, assocGet, hh, hk', Ne.symm h]
      · simp [assocSet, assocGet, hh, hk', ih]

theorem assocGet_foldl_assocSet {α : Type} (l : List (String × α))
    (init : List (String × α)) (k : String) :
    assocGet (l.foldl (fun acc kv => assocSet acc kv.1 kv.2) init) k
      = match lastAssoc l k with
        | some v => some v
        | none => assocGet init k := by
  induction l generalizing init with
  | nil => simp [lastAssoc]
  | cons hd tl ih =>
    simp only [List.foldl_cons, lastAssoc]
    rw [ih]
    cases htl : lastAssoc tl k with
    | some w => simp
    | none =>
      by_cases h : hd.1 = k
      · subst h
        simp [assocGet_assocSet_self]
      · simp [h, assocGet_assocSet_ne _ _ _ _ h]

theorem assocGet_envUnion (base ov : Env) (k : String) :
    assocGet (envUnion base ov) k
      = match lastAssoc ov k with
        | some v => some v
        | none => assocGet base k := by
  unfold envUnion
  rw [assocGet_foldl_assocSet ov base k]
  cases lastAssoc ov k <;> rfl

/-- A key is present via `assocGet` exactly when it is present via
`lastAssoc` (both mean the key occurs in the list). -/
theorem assocGet_isSome_iff_lastAssoc {α : Type} (m : List (String × α)) (k : String) :
    (assocGet m k).isSome ↔ (lastAssoc m k).isSome := by
  induction m with
  | nil => simp [assocGet, lastAssoc]
  | cons hd tl ih =>
    by_cases h : hd.1 = k
    · simp only [assocGet, lastAssoc, h, if_pos]
      cases htl : lastAssoc tl k <;> simp
    · simp only [assocGet, lastAssoc, h, if_neg, ite_false]
      cases htl : lastAssoc tl k <;> simp_all

theorem assocGet_filter_key (env : Env) (p : String → Bool) (k : String) :
    assocGet (env.filter (fun kv => p kv.1)) k
      = if p k then assocGet env k else none := by
  induction env with
  | nil => simp [assocGet]
  | cons hd tl ih =>
    by_cases hp : p hd.1
    · by_cases hk : hd.1 = k
      · subst hk
        simp [List.filter, hp, assocGet, ih]
      · simp [List.filter, hp, assocGet, hk, ih]
    · by_cases hk : hd.1 = k
      · subst hk
        simp [List.filter, hp, assocGet, ih]
      · simp [List.filter, hp, assocGet, hk, ih]

/-- Key membership in an environment is lookup success. -/
theorem envKeys_mem_iff (m : Env) (k : String) :
    k ∈ envKeys m ↔ (assocGet m k).isSome := by
  induction m with
  | nil => simp [envKeys, assocGet]
  | cons hd tl ih =>
    simp only [envKeys, List.map_cons, List.mem_cons] at ih ⊢
    by_cases h : hd.1 = k
    · subst h
      simp [assocGet]
    · have h2 : ¬ k = hd.1 := fun hq => h hq.symm
      rw [assocGet]
      simp only [h, if_false, h2, false_or, ite_false]
      exact ih

/-- What filterKeys keeps: a key survives iff it was there, the combined
allowlist is empty or matches it, and the combined denylist does not
match it. -/
theorem mem_filterKeys (gm : String → String → Bool) (ec : EnvConfig)
    (keys0 : List String) (K : String) :
    K ∈ filterKeys gm ec keys0 ↔
      (K ∈ keys0 ∧
        (combineLists ec.allowlist ec.allowlistDeprecated = [] ∨
          anyGlobMatch gm K (combineLists ec.allowlist ec.allowlistDeprecated) = true) ∧
        anyGlobMatch gm K (combineLists ec.denylist ec.denylistDeprecated) = false) := by
  unfold filterKeys
  by_cases hd : combineLists ec.denylist ec.denylistDeprecated = []
  · rw [hd]
    by_cases ha : combineLists ec.allowlist ec.allowlistDeprecated = []
    · rw [ha]
      simp [anyGlobMatch]
    · have hal : 0 < (combineLists ec.allowlist ec.allowlistDeprecated).length :=
        List.length_pos.mpr ha
      simp [hal, ha, List.mem_filter, anyGlobMatch]
  · have hdl : 0 < (combineLists ec.denylist ec.denylistDeprecated).length :=
      List.length_pos.mpr hd
    by_cases ha : combineLists ec.allowlist ec.allowlistDeprecated = []
    · rw [ha]
      simp [hdl, List.mem_filter, anyGlobMatch]
    · have hal : 0 < (combineLists ec.allowlist ec.allowlistDeprecated).length :=
        List.length_pos.mpr ha
      simp [hal, hdl, ha, List.mem_filter]
      tauto

/-- In exec.env.pristine mode applyConfigEnv returns exactly the parsed
customs, ignoring the incoming environment entirely. -/
theorem applyConfigEnv_pristine (gm : String → String → Bool)
    (ec : EnvConfig) (env custom : Env) (hp : ec.pristine = true)
    (hc : parseCustom ec.custom = some custom) :
    applyConfigEnv gm ec env = some custom := by
  unfold applyConfigEnv
  rw [hc, hp]
  cases custom with
  | nil => simp
  | cons hd tl => simp

/-- The snapshot built by folding Receive over an arrival sequence holds,
for each dependency, exactly the LAST datum that arrived for it. -/
theorem assocGet_receiveAll_nil (arr : List (String × DepData)) (id : String) :
    assocGet (receiveAll [] arr) id = lastAssoc arr id := by
  unfold receiveAll receive
  rw [assocGet_foldl_assocSet]
  cases lastAssoc arr id <;> simp [assocGet]

/-! ## Claims -/

/-- Claim C1, counterexample: emitted keys do NOT bypass the allow/deny
filters. A KV store emits FOO, the denylist holds the (literal) glob FOO,
the ambient environment is empty: the compiled env contains FOO but the
child environment is empty, contradicting the claim that emitted keys
bypass the filters entirely. -/
theorem c1_counterexample :
    Run idEngine litGM cfgDenyFOO [Dep.kv "d1" cpNoPre]
      [("d1", DepData.kvPairs [("FOO", "1")])] [] []
      = some (.spawnChild [("FOO", "1")] []) ∧
    litGM "FOO" "FOO" = true := ⟨rfl, rfl⟩

/-- Claim C1 (amended): in non-pristine mode a key K appears in the
output of applyConfigEnv iff K is a custom key, or K is present in the
merged ambient-plus-emitted map AND (the combined allowlist is empty or
some glob matches K) AND no combined denylist glob matches K. Only the
custom entries bypass the filters; emitted keys are filtered exactly like
ambient ones. -/
theorem c1_filter_composition (gm : String → String → Bool) (ec : EnvConfig)
    (env res custom : Env) (K : String)
    (hp : ec.pristine = false)
    (hc : parseCustom ec.custom = some custom)
    (hr : applyConfigEnv gm ec env = some res) :
    (assocGet res K).isSome ↔
      ((assocGet custom K).isSome ∨
        ((assocGet env K).isSome ∧
          (combineLists ec.allowlist ec.allowlistDeprecated = [] ∨
            anyGlobMatch gm K (combineLists ec.allowlist ec.allowlistDeprecated) = true) ∧
          anyGlobMatch gm K (combineLists ec.denylist ec.denylistDeprecated) = false)) := by
  unfold applyConfigEnv at hr
  rw [hc, hp] at hr
  simp only [Bool.false_eq_true, if_false, Option.some.injEq] at hr
  subst hr
  rw [assocGet_envUnion]
  cases hcu : lastAssoc custom K with
  | some w =>
    have hcs : (assocGet custom K).isSome := by
      rw [assocGet_isSome_iff_lastAssoc, hcu]
      rfl
    simp [hcs]
  | none =>
    have hcs : ¬ (assocGet custom K).isSome := by
      rw [assocGet_isSome_iff_lastAssoc, hcu]
      simp
    rw [assocGet_filter_key]
    by_cases hmem : K ∈ filterKeys gm ec (envKeys env)
    · have hcont : (filterKeys gm ec (envKeys env)).contains K = true := by
        simpa using hmem
      rw [hcont]
      have hspec := (mem_filterKeys gm ec (envKeys env) K).mp hmem
      rw [envKeys_mem_iff] at hspec
      simp only [if_true, ite_true]
      constructor
      · intro hsome
        exact Or.inr ⟨hsome, hspec.2.1, hspec.2.2⟩
      · intro _
        exact hspec.1
    · have hcont : (filterKeys gm ec (envKeys env)).contains K = false := by
        simpa using hmem
      rw [hcont]
      simp only [if_false, ite_false, Option.isSome_none, Bool.false_eq_true,
        false_iff]
      intro hor
      cases hor with
      | inl h => exact hcs h
      | inr h =>
        exact hmem ((mem_filterKeys gm ec (envKeys env) K).mpr
          ⟨(envKeys_mem_iff env K).mpr h.1, h.2.1, h.2.2⟩)

/-- Claim C1 witness: the amended filter-composition property evaluated
with a concrete denylist FOO: BAR survives in the output because the
allowlist is empty and no denylist glob matches BAR. -/
theorem c1_filter_composition_witness :
    ecDenyFOO.pristine = false ∧
    parseCustom ecDenyFOO.custom = some [] ∧
    applyConfigEnv litGM ecDenyFOO [("FOO", "1"), ("BAR", "2")]
      = some [("BAR", "2")] ∧
    ((assocGet ([("BAR", "2")] : Env) "BAR").isSome ↔
      ((assocGet ([] : Env) "BAR").isSome ∨
        ((assocGet ([("FOO", "1"), ("BAR", "2")] : Env) "BAR").isSome ∧
          (combineLists ecDenyFOO.allowlist ecDenyFOO.allowlistDeprecated = [] ∨
            anyGlobMatch litGM "BAR"
              (combineLists ecDenyFOO.allowlist ecDenyFOO.allowlistDeprecated) = true) ∧
          anyGlobMatch litGM "BAR"
            (combineLists ecDenyFOO.denylist ecDenyFOO.denylistDeprecated) = false))) :=
  ⟨rfl, rfl, rfl,
    c1_filter_composition litGM ecDenyFOO [("FOO", "1"), ("BAR", "2")]
      [("BAR", "2")] [] "BAR" rfl rfl rfl⟩

/-- Claim C2, counterexample: in pristine mode the emitted entries are
DROPPED, not kept. One KV source emits A=1, there are no customs, the
child environment is empty instead of the claimed custom-union-emitted
map containing A. -/
theorem c2_counterexample :
    Run idEngine litGM cfgPristine [Dep.kv "d1" cpNoPre]
      [("d1", DepData.kvPairs [("A", "1")])] [] [("HOME", "/h")]
      = some (.spawnChild [("A", "1")] []) ∧
    assocGet ([] : Env) "A" = none := ⟨rfl, rfl⟩

/-- Claim C2 (amended): in pristine mode the environment handed to the
child is EXACTLY the parsed custom entries (the empty, non-nil map when
there are none) — no OS-inherited keys and no store-emitted entries. -/
theorem c2_pristine_exact_customs (E : TemplateEngine)
    (gm : String → String → Bool) (cfg : RunnerConfig) (deps : List Dep)
    (snap : Snapshot) (prev os emitted child custom : Env)
    (hp : cfg.execEnv.pristine = true)
    (hc : parseCustom cfg.execEnv.custom = some custom)
    (hr : Run E gm cfg deps snap prev os = some (.spawnChild emitted child)) :
    child = custom := by
  unfold Run at hr
  cases hb : buildEnv E cfg.sanitize cfg.upcase deps snap with
  | panicked =>
    rw [hb] at hr
    simp at hr
  | notReady =>
    rw [hb] at hr
    simp at hr
  | built e =>
    rw [hb] at hr
    by_cases hs : runEnvSame prev e = true
    · simp [hs] at hr
    · have hsf : runEnvSame prev e = false := by
        cases hq : runEnvSame prev e
        · rfl
        · exact absurd hq hs
      simp only [hsf, Bool.false_eq_true, if_false] at hr
      rw [applyConfigEnv_pristine gm cfg.execEnv _ custom hp hc] at hr
      simp only [Option.some.injEq, RunOutcome.spawnChild.injEq] at hr
      exact hr.2.symm

/-- Claim C2 witness: pristine with custom B=2 and emitted A=1; the child
environment is exactly the customs. -/
theorem c2_pristine_exact_customs_witness :
    cfgPristineCustom.execEnv.pristine = true ∧
    parseCustom cfgPristineCustom.execEnv.custom = some [("B", "2")] ∧
    Run idEngine litGM cfgPristineCustom [Dep.kv "d1" cpNoPre]
      [("d1", DepData.kvPairs [("A", "1")])] [] [("HOME", "/h")]
      = some (.spawnChild [("A", "1")] [("B", "2")]) ∧
    ([("B", "2")] : Env) = [("B", "2")] :=
  ⟨rfl, rfl, rfl,
    c2_pristine_exact_customs idEngine litGM cfgPristineCustom
      [Dep.kv "d1" cpNoPre] [("d1", DepData.kvPairs [("A", "1")])] []
      [("HOME", "/h")] [("A", "1")] [("B", "2")] [("B", "2")] rfl rfl rfl⟩

/-- Claim C3 (the code contradicts it): Run discards the error results of
the append functions. Dependency d2 holds data of the wrong shape (a
Secret where a KeyPair list is expected); appendPrefixes reports the
conversion error, but Run ignores it, keeps the partially built
environment and still spawns a child on this tick. -/
theorem c3_decode_error_ignored :
    appendPrefixes idEngine false false cpNoPre [("A", "1")]
      (DepData.secret []) = .failed [("A", "1")] "error converting to keypair" ∧
    Run idEngine litGM cfgPlain
      [Dep.kv "d1" cpNoPre, Dep.kv "d2" cpNoPre]
      [("d1", DepData.kvPairs [("A", "1")]), ("d2", DepData.secret [])] [] []
      = some (.spawnChild [("A", "1")] [("A", "1")]) := ⟨rfl, rfl⟩

/-- Claim C4 (the code contradicts it): template failures are not
surfaced. A parse failure is swallowed INSIDE applyFormatTemplate and
applyPathTemplate (they return an empty key and a nil error); an
execution failure is returned by appendPrefixes but discarded by Run,
which still spawns a child on this tick. -/
theorem c4_template_error_ignored :
    applyFormatTemplate parseFailEngine "fmtA" "K" = ("", none) ∧
    applyPathTemplate parseFailEngine "pathA" = ("", none) ∧
    appendPrefixes execFailEngine false false cpFmt [("A", "1")]
      (.kvPairs [("B", "2")]) = .failed [("A", "1")] "boom" ∧
    Run execFailEngine litGM cfgPlain
      [Dep.kv "d1" cpNoPre, Dep.kv "d2" cpFmt]
      [("d1", DepData.kvPairs [("A", "1")]), ("d2", DepData.kvPairs [("B", "2")])]
      [] []
      = some (.spawnChild [("A", "1")] [("A", "1")]) := ⟨rfl, rfl, rfl, rfl⟩

/-- Claim C5: with the kv dependency registered before the secret
dependency (the order init produces), a key K emitted by both ends up
with the secret's value in the built environment, whatever the arrival
order of the data: the snapshot only retains the last datum per
dependency, and the build folds the dependency list in registration
order, so the secret's write lands last. -/
theorem c5_secret_precedence (E : TemplateEngine) (san up : Bool)
    (kvCp secCp : PrefixConfig) (id1 id2 K v1 v2 : String)
    (arr : List (String × DepData)) (d1 d2 : DepData) (e1 : Env)
    (_hne : id1 ≠ id2)
    (ha1 : lastAssoc arr id1 = some d1)
    (ha2 : lastAssoc arr id2 = some d2)
    (hkv : depStep E san up [] (Dep.kv id1 kvCp) d1 = .done e1)
    (_hkvK : assocGet e1 K = some v1)
    (hsec : ∀ e : Env, ∃ e2 : Env,
      depStep E san up e (Dep.vault id2 secCp) d2 = .done e2 ∧
        assocGet e2 K = some v2) :
    ∃ ef, buildEnv E san up [Dep.kv id1 kvCp, Dep.vault id2 secCp]
        (receiveAll [] arr) = .built ef ∧ assocGet ef K = some v2 := by
  obtain ⟨e2, hstep, hK⟩ := hsec e1
  refine ⟨e2, ?_, hK⟩
  have h1 : assocGet (receiveAll [] arr) id1 = some d1 := by
    rw [assocGet_receiveAll_nil, ha1]
  have h2 : assocGet (receiveAll [] arr) id2 = some d2 := by
    rw [assocGet_receiveAll_nil, ha2]
  simp only [buildEnv, buildEnvLoop, depId, h1, h2, hkv, hstep]

/-- Claim C5 witness: the secret's data arrives BEFORE the kv data, both
emit K, and the built environment still holds the secret's value. -/
theorem c5_secret_precedence_witness :
    ∃ ef, buildEnv idEngine false false
        [Dep.kv "kv.list:p" cpNoPre, Dep.vault "vault.read:p" cpNoPre]
        (receiveAll []
          [("vault.read:p", DepData.secret [("K", VVal.vStr "right")]),
            ("kv.list:p", DepData.kvPairs [("K", "wrong")])])
        = .built ef ∧ assocGet ef "K" = some "right" :=
  c5_secret_precedence idEngine false false cpNoPre cpNoPre
    "kv.list:p" "vault.read:p" "K" "wrong" "right"
    [("vault.read:p", DepData.secret [("K", VVal.vStr "right")]),
      ("kv.list:p", DepData.kvPairs [("K", "wrong")])]
    (DepData.kvPairs [("K", "wrong")])
    (DepData.secret [("K", VVal.vStr "right")])
    [("K", "wrong")] (by decide) rfl rfl rfl rfl
    (fun e => ⟨assocSet e "K" "right", rfl, assocGet_assocSet_self e "K" "right"⟩)

/-- Claim C6, counterexample: with no_prefix UNSET the KV key is emitted
WITHOUT the path prefix — the source only prefixes when no_prefix is
explicitly false ("Default to excluding prefix for Consul keys"),
contradicting the claim that an unset no_prefix also prefixes. -/
theorem c6_counterexample :
    appendPrefixes idEngine false false ⟨"app", none, none, none⟩ []
      (.kvPairs [("k", "v")]) = .done [("k", "v")] ∧
    assocGet ([("k", "v")] : Env) "app_k" = none := ⟨rfl, rfl⟩

/-- Claim C6 (amended): for a KV pair under a prefix stanza with no
format template, the emitted key is `replaceInvalid(path) ++ "_" ++ k`
exactly when no_prefix is EXPLICITLY false, and `k` unmodified when
no_prefix is unset or true; global sanitize and upcase then apply. -/
theorem c6_effective_key (E : TemplateEngine) (san up : Bool)
    (path k v : String) (np : Option Bool)
    (hk : (trimSpace k == "") = false) :
    appendPrefixes E san up ⟨path, np, none, none⟩ [] (.kvPairs [(k, v)])
      = .done [(kvEffectiveKey san up path np k, v)] := by
  unfold appendPrefixes appendPrefixesLoop
  rw [hk]
  cases np with
  | none =>
    simp [kvEffectiveKey, stringPresent, boolVal, assocSet, appendPrefixesLoop]
  | some b =>
    cases b <;>
      simp [kvEffectiveKey, stringPresent, boolVal, assocSet, appendPrefixesLoop]

/-- Claim C6 witness: path app/db with explicit no_prefix = false emits
app_db_host (invalid path characters replaced, prefix joined with an
underscore). -/
theorem c6_effective_key_witness :
    (trimSpace "host" == "") = false ∧
    kvEffectiveKey false false "app/db" (some false) "host" = "app_db_host" ∧
    appendPrefixes idEngine false false ⟨"app/db", some false, none, none⟩ []
      (.kvPairs [("host", "db1")])
      = .done [(kvEffectiveKey false false "app/db" (some false) "host", "db1")] :=
  ⟨rfl, rfl, c6_effective_key idEngine false false "app/db" "host" "db1"
    (some false) rfl⟩

/-- The build loop only reads the snapshot through per-dependency
lookups: two snapshots that agree on every registered dependency's
identity build identically (from any starting environment). -/
theorem buildEnvLoop_congr (E : TemplateEngine) (san up : Bool)
    (snap1 snap2 : Snapshot) (ds : List Dep)
    (h : ∀ d ∈ ds, assocGet snap1 (depId d) = assocGet snap2 (depId d)) :
    ∀ env, buildEnvLoop E san up snap1 env ds
      = buildEnvLoop E san up snap2 env ds := by
  induction ds with
  | nil => intro env; rfl
  | cons d rest ih =>
    intro env
    have hd := h d (List.mem_cons_self d rest)
    have hrest : ∀ d' ∈ rest,
        assocGet snap1 (depId d') = assocGet snap2 (depId d') :=
      fun d' hm => h d' (List.mem_cons_of_mem d hm)
    simp only [buildEnvLoop]
    rw [hd]
    cases hq : assocGet snap2 (depId d) with
    | none => rfl
    | some data =>
      cases hq2 : depStep E san up env d data with
      | panicked => simp only [hq2]
      | done e =>
        simp only [hq2]
        exact ih hrest e
      | failed e m =>
        simp only [hq2]
        exact ih hrest e

/-- Claim C7, counterexample: the build is NOT a function of the
snapshot alone. The two lists are range orders of the SAME secret value
map (a permutation), yet under upcase the keys a and A collide onto the
final key A and the two orders build different environments — Go's map
iteration order is unspecified, so build(S) = build(S) fails as stated. -/
theorem c7_counterexample :
    ([("a", VVal.vStr "1"), ("A", VVal.vStr "2")] : List (String × VVal)).Perm
      [("A", VVal.vStr "2"), ("a", VVal.vStr "1")] ∧
    appendSecrets idEngine false true cpNoPre []
      (.secret [("a", VVal.vStr "1"), ("A", VVal.vStr "2")])
      = .done [("A", "2")] ∧
    appendSecrets idEngine false true cpNoPre []
      (.secret [("A", VVal.vStr "2"), ("a", VVal.vStr "1")])
      = .done [("A", "1")] ∧
    ([("A", "2")] : Env) ≠ [("A", "1")] :=
  ⟨List.Perm.swap _ _ _, rfl, rfl, by decide⟩

/-- Claim C7 (amended): the build is a pure function of the
per-dependency data together with the map-iteration orders Go leaves
unspecified — two snapshots with identical lookups at every registered
dependency (hence identical payloads, iteration orders included) build
identically — and when the newly built environment deep-equals the
previous one (length check then deep equality), Run returns "unchanged"
and the child is neither stopped nor spawned. -/
theorem c7_idempotence (E : TemplateEngine) (gm : String → String → Bool)
    (cfg : RunnerConfig) (deps : List Dep) (snap snap2 : Snapshot)
    (prev os e : Env)
    (hlook : ∀ d ∈ deps, assocGet snap (depId d) = assocGet snap2 (depId d))
    (hb : buildEnv E cfg.sanitize cfg.upcase deps snap = .built e)
    (hs : runEnvSame prev e = true) :
    buildEnv E cfg.sanitize cfg.upcase deps snap
      = buildEnv E cfg.sanitize cfg.upcase deps snap2 ∧
    Run E gm cfg deps snap prev os = some .unchanged := by
  constructor
  · unfold buildEnv
    exact buildEnvLoop_congr E cfg.sanitize cfg.upcase snap snap2 deps hlook []
  · unfold Run
    rw [hb]
    simp [hs]

/-- Claim C7 witness: one KV dependency rebuilt against an unchanged
snapshot (also against a second snapshot with the same lookup but an
extra unrelated entry) produces the same environment, and Run reports
"unchanged". -/
theorem c7_idempotence_witness :
    (∀ d ∈ [Dep.kv "d1" cpNoPre],
      assocGet [("d1", DepData.kvPairs [("A", "1")])] (depId d)
        = assocGet [("d1", DepData.kvPairs [("A", "1")]), ("d2", DepData.raw)]
            (depId d)) ∧
    buildEnv idEngine cfgPlain.sanitize cfgPlain.upcase [Dep.kv "d1" cpNoPre]
      [("d1", DepData.kvPairs [("A", "1")])] = .built [("A", "1")] ∧
    runEnvSame [("A", "1")] [("A", "1")] = true ∧
    (buildEnv idEngine cfgPlain.sanitize cfgPlain.upcase [Dep.kv "d1" cpNoPre]
        [("d1", DepData.kvPairs [("A", "1")])]
      = buildEnv idEngine cfgPlain.sanitize cfgPlain.upcase [Dep.kv "d1" cpNoPre]
        [("d1", DepData.kvPairs [("A", "1")]), ("d2", DepData.raw)] ∧
    Run idEngine litGM cfgPlain [Dep.kv "d1" cpNoPre]
      [("d1", DepData.kvPairs [("A", "1")])] [("A", "1")] []
      = some .unchanged) :=
  ⟨fun d hd => by
      rw [List.mem_singleton] at hd
      subst hd
      rfl,
    rfl, rfl,
    c7_idempotence idEngine litGM cfgPlain [Dep.kv "d1" cpNoPre]
      [("d1", DepData.kvPairs [("A", "1")])]
      [("d1", DepData.kvPairs [("A", "1")]), ("d2", DepData.raw)]
      [("A", "1")] [] [("A", "1")]
      (fun d hd => by
        rw [List.mem_singleton] at hd
        subst hd
        rfl)
      rfl rfl⟩

/-- Claim C8: with quiescence enabled, every data arrival re-arms
minTimer to fire min from now, while maxTimer keeps its old deadline when
already armed and is armed to max from now otherwise, and the loop
continues without building; when either timer fires, both timers are
cleared and a rebuild is attempted. -/
theorem c8_quiescence_timers (wmin wmax now : Nat) (s : QState) :
    (onDataArrival true wmin wmax now s).1.minTimer = some (now + wmin) ∧
    (onDataArrival true wmin wmax now s).1.maxTimer
      = some (Option.getD s.maxTimer (now + wmax)) ∧
    (onDataArrival true wmin wmax now s).2 = false ∧
    onMinTimerFired s = (⟨none, none⟩, true) ∧
    onMaxTimerFired s = (⟨none, none⟩, true) := by
  refine ⟨rfl, ?_, rfl, rfl, rfl⟩
  cases hm : s.maxTimer <;> simp [onDataArrival, hm]

/-- Claim C9, counterexample: Must does NOT return a non-nil config on a
parse failure: Parse returns a nil pointer alongside the error and Must
hands that nil pointer straight back (it only logs). -/
theorem c9_counterexample :
    MustGo (fun _ : String =>
      (Except.error "error converting config" : Except String Unit)) "]["
      = GoPtr.null := rfl

/-- Claim C9 (amended): whenever the decode pipeline fails, Must logs and
returns the NIL config pointer Parse produced (its doc comment promises a
panic; the spec's claim of a non-nil result holds in neither reading). -/
theorem c9_must_nil_on_error {α : Type} (pipeline : String → Except String α)
    (s e : String) (h : pipeline s = .error e) :
    MustGo pipeline s = .null := by
  unfold MustGo ParseGo
  rw [h]

/-- Claim C9 witness: a pipeline failing on a concrete malformed document
makes Must return nil. -/
theorem c9_must_nil_on_error_witness :
    (fun _ : String =>
      (Except.error "error decoding config" : Except String Unit)) "]["
      = Except.error "error decoding config" ∧
    MustGo (fun _ : String =>
      (Except.error "error decoding config" : Except String Unit)) "]["
      = GoPtr.null :=
  ⟨rfl, c9_must_nil_on_error
    (fun _ : String =>
      (Except.error "error decoding config" : Except String Unit))
    "][" "error decoding config" rfl⟩

/-- Claim C10: the unchecked type assertions in the secret path panic on
malformed payloads: a non-map metadata value makes isVaultKv2 panic, so
appendSecrets panics on such a secret, and a KV-v2 payload whose inner
data field is present but not a map panics in the unwrap step; neither
case returns an error or skips the entry. -/
theorem c10_secret_panics :
    isVaultKv2 [("metadata", VVal.vStr "1")] = none ∧
    appendSecrets idEngine false false cpNoPre []
      (.secret [("metadata", VVal.vStr "1")]) = .panicked ∧
    appendSecrets idEngine false false cpNoPre []
      (.secret [("metadata", VVal.vMap [("version", VVal.vStr "1")]),
        ("data", VVal.vStr "oops")]) = .panicked := ⟨rfl, rfl, rfl⟩
